import Mathlib

/-!
Verification of `radio_mirchi_backend` against its specification.

The repository has two source files:
* `tests/test_flow.py` — a manual test client: mission creation over HTTP,
  status polling, a WebSocket session, and a background audio-player thread
  that aligns byte chunks to 2-byte sample boundaries.
* `app/services/llm_service.py` — prompt construction and result checking
  around a hosted LLM call.

This file shallowly embeds the relevant routines and proves the frozen
claims about them.  Bytes are modelled as `Nat` (only the value `0` of the
padding byte matters to any claim); byte strings are `List Nat`.
-/

namespace RadioMirchi

/-! ## Audio player (`tests/test_flow.py`, `audio_player_thread`)

The thread owns a growable `audio_buffer : bytearray` and a record of the
data written to the sounddevice output stream.  We model its state by the
retained buffer together with the list of writes issued so far, in order.
-/

/-- State of the audio-player thread: the retained `audio_buffer` and the
byte strings written to the output stream so far (in order). -/
structure PlayerState where
  buffer : List Nat
  written : List (List Nat)
  deriving Repr, DecidableEq

/-- The player's initial state: `audio_buffer = bytearray()`, nothing written. -/
def playerInit : PlayerState := ⟨[], []⟩

/-- One iteration of the `while True` loop body of `audio_player_thread`
after a non-`None` chunk was dequeued:

    audio_buffer.extend(chunk)
    playable_size = (len(audio_buffer) // 2) * 2
    if playable_size > 0:
        data_to_play = audio_buffer[:playable_size]
        stream.write(np.frombuffer(data_to_play, dtype=np.int16))
        audio_buffer = audio_buffer[playable_size:]
-/
def audio_step (st : PlayerState) (chunk : List Nat) : PlayerState :=
  let buf := st.buffer ++ chunk
  let playable_size := (buf.length / 2) * 2
  if playable_size > 0 then
    { buffer := buf.drop playable_size
      written := st.written ++ [buf.take playable_size] }
  else
    { buffer := buf, written := st.written }

/-- The player loop run over a finite sequence of chunks delivered before
the `None` sentinel. -/
def audio_loop (chunks : List (List Nat)) : PlayerState :=
  chunks.foldl audio_step playerInit

/-- The code after the loop:

    if len(audio_buffer) > 0:
        if len(audio_buffer) % 2 != 0:
            audio_buffer.append(0)
        stream.write(np.frombuffer(audio_buffer, dtype=np.int16))
-/
def final_flush (st : PlayerState) : PlayerState :=
  if st.buffer.length > 0 then
    { buffer := []
      written := st.written ++
        [if st.buffer.length % 2 ≠ 0 then st.buffer ++ [0] else st.buffer] }
  else st

/-- All data written to the output stream by `audio_player_thread` on a
queue that delivers `chunks` and then the `None` sentinel: the in-loop
writes followed by the final flush. -/
def audio_player_writes (chunks : List (List Nat)) : List (List Nat) :=
  (final_flush (audio_loop chunks)).written

/-! ### Basic invariants of the loop body -/

/-- The virtual output of a state: everything written so far followed by the
retained buffer.  Each loop iteration extends it by exactly the received
chunk. -/
def totalOut (st : PlayerState) : List Nat := st.written.flatten ++ st.buffer

theorem audio_step_totalOut (st : PlayerState) (c : List Nat) :
    totalOut (audio_step st c) = totalOut st ++ c := by
  unfold audio_step totalOut
  dsimp only
  split <;> simp [List.append_assoc, List.take_append_drop]

theorem audio_step_buffer_length (st : PlayerState) (c : List Nat) :
    (audio_step st c).buffer.length = (st.buffer.length + c.length) % 2 := by
  unfold audio_step
  dsimp only
  have hd := Nat.div_add_mod (st.buffer.length + c.length) 2
  split <;> rename_i h <;>
    simp only [List.length_drop, List.length_append] <;>
    simp only [List.length_append] at h <;>
    omega

theorem audio_loop_totalOut (chunks : List (List Nat)) (st : PlayerState) :
    totalOut (chunks.foldl audio_step st) = totalOut st ++ chunks.flatten := by
  induction chunks generalizing st with
  | nil => simp
  | cons c cs ih =>
    simp only [List.foldl_cons, ih (audio_step st c), audio_step_totalOut,
      List.flatten_cons, List.append_assoc]

theorem audio_loop_buffer_length (chunks : List (List Nat)) (st : PlayerState)
    (h : st.buffer.length < 2) :
    (chunks.foldl audio_step st).buffer.length =
      (st.buffer.length + chunks.flatten.length) % 2 := by
  induction chunks generalizing st with
  | nil => simp; omega
  | cons c cs ih =>
    have h2 := audio_step_buffer_length st c
    have ih2 := ih (audio_step st c) (by omega)
    simp only [List.foldl_cons, ih2, h2, List.flatten_cons, List.length_append]
    omega

/-! ### The player loop driven by the queue, with its sentinel and the
stream events (`write` / `stop` / `close`) issued after the loop. -/

/-- `playable_size = (len(audio_buffer) // 2) * 2` (line 43 of the source):
the emitted prefix length for a buffer of length `n`. -/
def playable_size (n : Nat) : Nat := (n / 2) * 2

/-- The `while True` loop of `audio_player_thread` reading from the queue:
it blocks forever if the queue items run out (`none` result), and breaks
exactly when it dequeues the `None` sentinel (modelled as `Option.none`
among the items). -/
def player_loop : List (Option (List Nat)) → PlayerState → Option PlayerState
  | [], _ => none
  | none :: _, st => some st
  | some c :: rest, st => player_loop rest (audio_step st c)

/-- An event on the sounddevice output stream. -/
inductive AudioEv where
  | write (data : List Nat)
  | stop
  | close
  deriving Repr, DecidableEq

/-- The flush after the loop: one more write of the retained buffer when it
is non-empty, zero-padded first when its length is odd. -/
def flush_events (st : PlayerState) : List AudioEv :=
  if st.buffer.length > 0 then
    [AudioEv.write (if st.buffer.length % 2 ≠ 0 then st.buffer ++ [0] else st.buffer)]
  else []

/-- The whole event trace of `audio_player_thread` on a given finite queue
content: `none` when the loop never terminates (no sentinel), otherwise the
in-loop writes, then the final flush, then `stream.stop()`, `stream.close()`. -/
def player_events (items : List (Option (List Nat))) : Option (List AudioEv) :=
  match player_loop items playerInit with
  | none => none
  | some st =>
      some (st.written.map AudioEv.write ++ flush_events st ++ [AudioEv.stop, AudioEv.close])

/-- A message received on the WebSocket by `server_receiver`. -/
inductive WsMessage where
  | bytes (b : List Nat)
  | text (s : String)

/-- The items `handle_websocket_communication` puts on the audio queue: the
bytes messages received (enqueued by `server_receiver`), and then the `None`
sentinel which the `finally` block always enqueues. -/
def ws_enqueued (received : List WsMessage) : List (Option (List Nat)) :=
  (received.filterMap fun m => match m with
    | WsMessage.bytes b => some (some b)
    | WsMessage.text _ => none) ++ [none]

theorem player_loop_isSome (items : List (Option (List Nat))) (st : PlayerState) :
    (player_loop items st).isSome ↔ none ∈ items := by
  induction items generalizing st with
  | nil => simp [player_loop]
  | cons i rest ih =>
    cases i with
    | none => simp [player_loop]
    | some c => simp [player_loop, ih]

/-! ### Claim theorems for the audio player -/

/-- C1: stream preservation.  For every finite sequence of byte chunks
delivered before the `None` sentinel, the concatenation of everything
written to the output stream (in-loop writes then the final flush) equals
the concatenation of the received chunks, followed by exactly one zero byte
iff the total number of received bytes is odd. -/
theorem audio_player_stream_preservation (chunks : List (List Nat)) :
    (audio_player_writes chunks).flatten =
      chunks.flatten ++ (if chunks.flatten.length % 2 = 1 then [0] else []) := by
  have h1 := audio_loop_totalOut chunks playerInit
  have h2 := audio_loop_buffer_length chunks playerInit (by simp [playerInit])
  simp only [totalOut, show playerInit.written = [] from rfl,
    show playerInit.buffer = [] from rfl, List.flatten_nil, List.nil_append,
    List.length_nil, Nat.zero_add] at h1 h2
  unfold audio_player_writes final_flush audio_loop
  set s := chunks.foldl audio_step playerInit with hs
  by_cases hb : s.buffer.length > 0
  · have hmod : chunks.flatten.length % 2 = 1 := by omega
    have hodd : s.buffer.length % 2 ≠ 0 := by omega
    rw [if_pos hb, if_pos hodd, if_pos hmod]
    rw [← h1]
    simp [List.append_assoc]
  · have hnil : s.buffer = [] := List.eq_nil_of_length_eq_zero (by omega)
    have hmod : ¬ chunks.flatten.length % 2 = 1 := by omega
    rw [if_neg hb, if_neg hmod]
    rw [← h1, hnil]
    simp

/-- C2: per-chunk alignment.  After appending the dequeued chunk to the
buffer, the emitted prefix length `playable_size` is the largest multiple
of 2 not exceeding the buffer length; exactly that prefix is written
(nothing when it is 0) and the remaining suffix is retained. -/
theorem audio_step_alignment (st : PlayerState) (c : List Nat) :
    (2 ∣ playable_size (st.buffer ++ c).length
      ∧ playable_size (st.buffer ++ c).length ≤ (st.buffer ++ c).length
      ∧ ∀ m, 2 ∣ m → m ≤ (st.buffer ++ c).length →
          m ≤ playable_size (st.buffer ++ c).length)
    ∧ (audio_step st c).buffer =
        (st.buffer ++ c).drop (playable_size (st.buffer ++ c).length)
    ∧ (audio_step st c).written =
        (if playable_size (st.buffer ++ c).length = 0 then st.written
         else st.written ++ [(st.buffer ++ c).take (playable_size (st.buffer ++ c).length)]) := by
  have hd := Nat.div_add_mod (st.buffer ++ c).length 2
  refine ⟨⟨⟨(st.buffer ++ c).length / 2, by simp [playable_size, Nat.mul_comm]⟩, ?_, ?_⟩, ?_, ?_⟩
  · simp only [playable_size]; omega
  · intro m hm hle
    obtain ⟨k, hk⟩ := hm
    simp only [playable_size]
    omega
  · unfold audio_step
    dsimp only
    split <;> rename_i h
    · rfl
    · simp only [playable_size]
      have h0 : (st.buffer ++ c).length / 2 * 2 = 0 := by omega
      rw [h0, List.drop_zero]
  · unfold audio_step
    dsimp only
    split <;> rename_i h
    · rw [if_neg (by simp only [playable_size]; omega)]
      rfl
    · rw [if_pos (by simp only [playable_size]; omega)]

/-- Closed witness for C2 at a concrete state and chunk. -/
theorem audio_step_alignment_witness :
    (audio_step ⟨[5], []⟩ [6, 7]).buffer = [7]
      ∧ (audio_step ⟨[5], []⟩ [6, 7]).written = [[5, 6]] := by
  have h := audio_step_alignment ⟨[5], []⟩ [6, 7]
  exact ⟨by rw [h.2.1]; rfl, by rw [h.2.2]; rfl⟩

/-- C4: boundedness of the retained buffer.  At the end of every loop
iteration (after `k` chunks were processed) the retained buffer length
equals the total number of bytes received so far modulo 2, hence is at
most 1 byte. -/
theorem audio_buffer_bounded (chunks : List (List Nat)) (k : Nat) :
    (audio_loop (chunks.take k)).buffer.length = (chunks.take k).flatten.length % 2
      ∧ (audio_loop (chunks.take k)).buffer.length ≤ 1 := by
  have h := audio_loop_buffer_length (chunks.take k) playerInit (by simp [playerInit])
  rw [show playerInit.buffer.length = 0 from rfl, Nat.zero_add] at h
  unfold audio_loop
  exact ⟨h, by omega⟩

/-- C3: termination and final flush.  The player loop terminates exactly
when the `None` sentinel is among the queued items;
`handle_websocket_communication`'s `finally` block always enqueues that
sentinel; and on termination the trace is the in-loop writes, then (only if
the retained buffer is non-empty) one more write — zero-padded first when
its length is odd — and only then `stop` and `close`. -/
theorem audio_player_termination_flush (items : List (Option (List Nat)))
    (received : List WsMessage) :
    ((player_events items).isSome ↔ none ∈ items)
    ∧ none ∈ ws_enqueued received
    ∧ (∀ st, player_loop items playerInit = some st →
        player_events items = some (st.written.map AudioEv.write
          ++ (if st.buffer.length > 0 then
                [AudioEv.write (if st.buffer.length % 2 ≠ 0 then st.buffer ++ [0]
                                else st.buffer)]
              else [])
          ++ [AudioEv.stop, AudioEv.close])) := by
  refine ⟨?_, ?_, ?_⟩
  · rw [← player_loop_isSome items playerInit]
    unfold player_events
    cases h : player_loop items playerInit <;> simp [h]
  · simp [ws_enqueued]
  · intro st hst
    unfold player_events flush_events
    rw [hst]

/-- Closed witness for C3: a concrete queue content with the sentinel, an
odd number of total bytes, and a concrete WebSocket message list. -/
theorem audio_player_termination_flush_witness :
    player_events [some [1, 2, 3], none] =
      some [AudioEv.write [1, 2], AudioEv.write [3, 0], AudioEv.stop, AudioEv.close] := by
  have h := (audio_player_termination_flush [some [1, 2, 3], none]
      [WsMessage.text "hi"]).2.2 ⟨[3], [[1, 2]]⟩ (by rfl)
  rw [h]
  rfl

/-! ## LLM service (`app/services/llm_service.py`)

The module's three functions build a prompt, call
`client.models.generate_content`, and inspect the response.  The external
call is modelled by its outcome (a response object, or a raised exception);
everything the module itself does to that outcome is embedded below.
-/

/-- Modelled from the spec: the schema module `app/schemas/propaganda.py` is
not part of the excerpt.  The spec describes the DTOs as "mission summary,
proof sentences, speaker list, dialogue lines"; the fields below are the
ones the source code reads (`speakers`, `proof_sentences`, and for each
speaker `name`, `gender`, `role`, `background`). -/
structure Speaker where
  name : String
  gender : String
  role : String
  background : String
  deriving Repr, DecidableEq

/-- Modelled from the spec: one line of generated host dialogue, attributed
to a speaker.  No claim inspects its fields. -/
structure DialogueLine where
  speaker : String
  text : String
  deriving Repr, DecidableEq

/-- Modelled from the spec: the Stage-1 structured output (summary, proof
sentences, speakers, initial listener count). -/
structure PropagandaGenerationResult where
  summary : String
  proof_sentences : List String
  speakers : List Speaker
  initial_listeners : Int
  deriving Repr, DecidableEq

/-- Modelled from the spec: the Stage-2 structured output; the source reads
only its `dialogues` field (the floating-point
`awakened_listeners_change` field is not read by any code under `src/`
and is omitted). -/
structure DialogueTurn where
  dialogues : List DialogueLine
  deriving Repr, DecidableEq

/-- A Python exception as the service observes it: either the module's own
`LLMServiceError`, or any other `Exception` subclass (carrying its type
name and its `str(e)` message). -/
inductive PyExc where
  | llmServiceError (msg : String)
  | otherExc (ty : String) (msg : String)
  deriving Repr, DecidableEq

/-- `str(e)` of an exception: for `LLMServiceError(m)` this is `m`. -/
def excStr : PyExc → String
  | .llmServiceError m => m
  | .otherExc _ m => m

/-- The value of `response.parsed` as the `isinstance` checks see it. -/
inductive GenParsed where
  | propaganda (p : PropagandaGenerationResult)
  | dialogueTurn (t : DialogueTurn)
  | otherObj
  deriving Repr, DecidableEq

/-- A `generate_content` response: `parsed = none` models a response object
without a `parsed` attribute (the `hasattr` guard); `text` is
`response.text`, with `""` falsy. -/
structure GenResponse where
  parsed : Option GenParsed
  text : String

/-- The outcome of the external `generate_content` call (including client
construction): a response, or a raised exception. -/
inductive CallOutcome where
  | returns (r : GenResponse)
  | raises (e : PyExc)

/-- The `except Exception as e: raise LLMServiceError(head + str(e))`
pattern that wraps the body of each service function. -/
def wrapErr {α : Type} (head : String) : Except PyExc α → Except PyExc α
  | .ok a => .ok a
  | .error e => .error (.llmServiceError (head ++ excStr e))

/-- `generate_initial_propaganda` (lines 35–67): returns `response.parsed`
when it is a `PropagandaGenerationResult` instance, otherwise raises; any
exception from the body is re-raised as `LLMServiceError`. -/
def generate_initial_propaganda (topic : String) (outcome : CallOutcome) :
    Except PyExc PropagandaGenerationResult :=
  wrapErr "An unexpected error occurred during initial propaganda generation: "
    (match outcome with
     | .raises e => .error e
     | .returns r =>
        match r.parsed with
        | some (GenParsed.propaganda p) => .ok p
        | _ => .error
            (.llmServiceError "LLM did not return a valid PropagandaGenerationResult object."))

/-- Python's `sep.join(xs)` (`str.join`). -/
def pyJoin (sep : String) : List String → String
  | [] => ""
  | x :: xs => xs.foldl (fun acc y => acc ++ sep ++ y) x

/-- The join separator written `"\\n"` in the Python source: the
two-character string backslash–`n`, not a newline. -/
def backslash_n : String := "\x5cn"

/-- One speaker profile line of `generate_unified_dialogue_prompt`
(line 74): `f"- {s.name} ({s.gender}, {s.role}): {s.background}"`. -/
def profile_line (s : Speaker) : String :=
  "- " ++ s.name ++ " (" ++ s.gender ++ ", " ++ s.role ++ "): " ++ s.background

/-- `character_profiles = "\\n".join([...])` (line 74). -/
def character_profiles (mission_data : PropagandaGenerationResult) : String :=
  pyJoin backslash_n (mission_data.speakers.map profile_line)

/-- One proof-sentence line (line 75): `f"- {p}"`. -/
def proof_line (p : String) : String := "- " ++ p

/-- `proofs = "\\n".join([...])` (line 75). -/
def proofs_block (mission_data : PropagandaGenerationResult) : String :=
  pyJoin backslash_n (mission_data.proof_sentences.map proof_line)

/-- The prompt built by `generate_unified_dialogue_prompt` (lines 77–86). -/
def unified_dialogue_prompt (mission_data : PropagandaGenerationResult) (topic : String) :
    String :=
  "You are a script director for a dystopian radio show. Your task is to create the dynamic context for a dialogue generation AI.\n\n"
  ++ "**Theme:** A radio propaganda piece on the topic: \"" ++ topic ++ "\".\n\n"
  ++ "**Background & Core Arguments (The hosts will treat these as undeniable truths):**\n"
  ++ proofs_block mission_data ++ "\n\n"
  ++ "**Characters:**\n"
  ++ character_profiles mission_data ++ "\n\n"
  ++ "**Your Task:**\n"
  ++ "Based on the theme, background, and characters, write a detailed \x27Show & Character Briefing\x27. This briefing should describe the overall tone of the show and provide a detailed personality, style, and perspective for EACH character. This will be used by another AI to generate their dialogue."

/-- `generate_unified_dialogue_prompt` (lines 69–97): returns
`response.text` when non-empty, otherwise raises; exceptions are wrapped. -/
def generate_unified_dialogue_prompt (mission_data : PropagandaGenerationResult)
    (topic : String) (outcome : CallOutcome) : Except PyExc String :=
  wrapErr "An unexpected error occurred during unified prompt generation: "
    (match outcome with
     | .raises e => .error e
     | .returns r =>
        if r.text ≠ "" then .ok r.text
        else .error
          (.llmServiceError "LLM returned an empty response for the unified dialogue prompt."))

/-- `generate_dialogue` (lines 99–128): returns `response.parsed.dialogues`
when `response.parsed` is a `DialogueTurn` instance, otherwise raises;
exceptions are wrapped. -/
def generate_dialogue (mission_context : String) (dialogue_history : String)
    (outcome : CallOutcome) : Except PyExc (List DialogueLine) :=
  wrapErr "An unexpected error occurred during dialogue generation: "
    (match outcome with
     | .raises e => .error e
     | .returns r =>
        match r.parsed with
        | some (GenParsed.dialogueTurn t) => .ok t.dialogues
        | _ => .error (.llmServiceError "LLM did not return a valid DialogueTurn object."))

theorem wrapErr_shape {α : Type} (head : String) (x : Except PyExc α) :
    (∃ a, wrapErr head x = .ok a) ∨ (∃ m, wrapErr head x = .error (.llmServiceError m)) := by
  cases x <;> simp [wrapErr]

/-- C5: uniform error wrapping.  Each of the three service functions either
returns normally or fails with an `LLMServiceError` carrying a message; no
exception of any other type escapes. -/
theorem llm_uniform_error_wrapping (topic mission_context dialogue_history : String)
    (mission_data : PropagandaGenerationResult) (o1 o2 o3 : CallOutcome) :
    ((∃ p, generate_initial_propaganda topic o1 = .ok p)
      ∨ (∃ m, generate_initial_propaganda topic o1 = .error (.llmServiceError m)))
    ∧ ((∃ s, generate_unified_dialogue_prompt mission_data topic o2 = .ok s)
      ∨ (∃ m, generate_unified_dialogue_prompt mission_data topic o2 =
          .error (.llmServiceError m)))
    ∧ ((∃ ds, generate_dialogue mission_context dialogue_history o3 = .ok ds)
      ∨ (∃ m, generate_dialogue mission_context dialogue_history o3 =
          .error (.llmServiceError m))) :=
  ⟨wrapErr_shape _ _, wrapErr_shape _ _, wrapErr_shape _ _⟩

/-- C6: result parsing is exactly a schema-instance check.
`generate_initial_propaganda` returns `p` iff `response.parsed` is the
`PropagandaGenerationResult` instance `p`; `generate_dialogue` returns `ds`
iff `response.parsed` is a `DialogueTurn` instance with `dialogues = ds`;
every other response makes the call raise `LLMServiceError`. -/
theorem llm_parse_schema_check (topic mission_context dialogue_history : String)
    (r : GenResponse) :
    (∀ p, generate_initial_propaganda topic (.returns r) = .ok p ↔
        r.parsed = some (GenParsed.propaganda p))
    ∧ (∀ ds, generate_dialogue mission_context dialogue_history (.returns r) = .ok ds ↔
        ∃ t, r.parsed = some (GenParsed.dialogueTurn t) ∧ ds = t.dialogues)
    ∧ ((∃ p, r.parsed = some (GenParsed.propaganda p))
        ∨ ∃ m, generate_initial_propaganda topic (.returns r) = .error (.llmServiceError m))
    ∧ ((∃ t, r.parsed = some (GenParsed.dialogueTurn t))
        ∨ ∃ m, generate_dialogue mission_context dialogue_history (.returns r) =
            .error (.llmServiceError m)) := by
  obtain ⟨parsed, text⟩ := r
  rcases parsed with _ | g
  · simp [generate_initial_propaganda, generate_dialogue, wrapErr]
  · cases g <;>
      simp [generate_initial_propaganda, generate_dialogue, wrapErr, eq_comm]

/-- Closed witness for C6 at a concrete parsed response. -/
theorem llm_parse_schema_check_witness :
    generate_initial_propaganda "t"
        (.returns ⟨some (GenParsed.propaganda ⟨"s", [], [], 0⟩), ""⟩) =
      .ok ⟨"s", [], [], 0⟩ :=
  ((llm_parse_schema_check "t" "mc" "dh"
      ⟨some (GenParsed.propaganda ⟨"s", [], [], 0⟩), ""⟩).1 ⟨"s", [], [], 0⟩).mpr rfl

theorem pyJoin_foldl_no_newline (sep : String) (xs : List String) (acc : String)
    (hsep : ∀ ch ∈ sep.data, ch ≠ '\n')
    (hacc : ∀ ch ∈ acc.data, ch ≠ '\n')
    (hxs : ∀ x ∈ xs, ∀ ch ∈ x.data, ch ≠ '\n') :
    ∀ ch ∈ (xs.foldl (fun a y => a ++ sep ++ y) acc).data, ch ≠ '\n' := by
  induction xs generalizing acc with
  | nil => exact hacc
  | cons x xs ih =>
    refine ih (acc ++ sep ++ x) ?_ (fun y hy => hxs y (List.mem_cons_of_mem _ hy))
    intro ch hch
    simp only [String.data_append, List.mem_append] at hch
    rcases hch with (hch | hch) | hch
    · exact hacc ch hch
    · exact hsep ch hch
    · exact hxs x (List.mem_cons_self _ _) ch hch

theorem pyJoin_no_newline (sep : String) (xs : List String)
    (hsep : ∀ ch ∈ sep.data, ch ≠ '\n')
    (hxs : ∀ x ∈ xs, ∀ ch ∈ x.data, ch ≠ '\n') :
    ∀ ch ∈ (pyJoin sep xs).data, ch ≠ '\n' := by
  cases xs with
  | nil => intro ch hch; simp [pyJoin] at hch
  | cons x xs =>
    exact pyJoin_foldl_no_newline sep xs x hsep
      (hxs x (List.mem_cons_self _ _))
      (fun y hy => hxs y (List.mem_cons_of_mem _ hy))

/-- C9: the prompt joins use the literal two-character string backslash–`n`,
not a newline.  The speaker-profile block and the proof-sentence block are
embedded in the unified prompt joined by that separator, so the joins put
no entries on separate lines: if the individual entry lines contain no
newline, neither does the joined block. -/
theorem prompt_join_literal_backslash_n (mission_data : PropagandaGenerationResult)
    (topic : String) :
    backslash_n.data = ['\x5c', 'n']
    ∧ backslash_n ≠ "\n"
    ∧ (∃ a b c, unified_dialogue_prompt mission_data topic =
        a ++ proofs_block mission_data ++ b ++ character_profiles mission_data ++ c)
    ∧ ((∀ s ∈ mission_data.speakers, ∀ ch ∈ (profile_line s).data, ch ≠ '\n') →
        ∀ ch ∈ (character_profiles mission_data).data, ch ≠ '\n')
    ∧ ((∀ p ∈ mission_data.proof_sentences, ∀ ch ∈ (proof_line p).data, ch ≠ '\n') →
        ∀ ch ∈ (proofs_block mission_data).data, ch ≠ '\n') := by
  refine ⟨rfl, by decide, ?_, ?_, ?_⟩
  · refine ⟨"You are a script director for a dystopian radio show. Your task is to create the dynamic context for a dialogue generation AI.\n\n"
      ++ "**Theme:** A radio propaganda piece on the topic: \"" ++ topic ++ "\".\n\n"
      ++ "**Background & Core Arguments (The hosts will treat these as undeniable truths):**\n",
      "\n\n" ++ "**Characters:**\n",
      "\n\n" ++ "**Your Task:**\n"
      ++ "Based on the theme, background, and characters, write a detailed \x27Show & Character Briefing\x27. This briefing should describe the overall tone of the show and provide a detailed personality, style, and perspective for EACH character. This will be used by another AI to generate their dialogue.", ?_⟩
    simp only [unified_dialogue_prompt, String.append_assoc]
  · intro h
    exact pyJoin_no_newline backslash_n (mission_data.speakers.map profile_line)
      (by decide)
      (by intro x hx
          obtain ⟨s, hs, rfl⟩ := List.mem_map.mp hx
          exact h s hs)
  · intro h
    exact pyJoin_no_newline backslash_n (mission_data.proof_sentences.map proof_line)
      (by decide)
      (by intro x hx
          obtain ⟨p, hp, rfl⟩ := List.mem_map.mp hx
          exact h p hp)

/-- Closed witness for C9: two concrete speakers joined by the literal
separator produce a profiles block without any newline character. -/
theorem prompt_join_literal_backslash_n_witness :
    (∀ s ∈ ({ summary := "s", proof_sentences := ["p1", "p2"],
              speakers := [⟨"Ann", "female", "Host", "bg1"⟩, ⟨"Bob", "male", "Guest", "bg2"⟩],
              initial_listeners := 50000 } : PropagandaGenerationResult).speakers,
        ∀ ch ∈ (profile_line s).data, ch ≠ '\n')
    ∧ (∀ ch ∈ (character_profiles
          { summary := "s", proof_sentences := ["p1", "p2"],
            speakers := [⟨"Ann", "female", "Host", "bg1"⟩, ⟨"Bob", "male", "Guest", "bg2"⟩],
            initial_listeners := 50000 }).data, ch ≠ '\n') :=
  ⟨by decide,
   (prompt_join_literal_backslash_n
      { summary := "s", proof_sentences := ["p1", "p2"],
        speakers := [⟨"Ann", "female", "Host", "bg1"⟩, ⟨"Bob", "male", "Guest", "bg2"⟩],
        initial_listeners := 50000 } "t").2.2.2.1 (by decide)⟩

/-! ## HTTP client (`tests/test_flow.py`): endpoints, polling, mission creation -/

/-- `BASE_URL` (line 14 of the source). -/
def BASE_URL : String := "http://localhost:8000/api/v1"

/-- The URL polled by `poll_mission_status` (line 97):
`f"{BASE_URL}/mission_status/{mission_id}"`. -/
def mission_status_url (mission_id : String) : String :=
  BASE_URL ++ "/mission_status/" ++ mission_id

/-- The WebSocket URI built in `main` (line 193):
`f"ws://localhost:8000/api/v1/ws/{mission_id}"`. -/
def ws_uri (mission_id : String) : String :=
  "ws://localhost:8000/api/v1/ws/" ++ mission_id

/-- One observed outcome of a `GET /mission_status/{id}` request: an
`aiohttp.ClientError` (also covering `raise_for_status`), or a JSON body
whose `.get("status")` is the given optional string. -/
inductive PollResp where
  | clientError (msg : String)
  | okStatus (status : Option String)
  deriving Repr, DecidableEq

/-- An action of the polling loop, in order: issuing the GET request,
console prints, and the `asyncio.sleep(2)` between polls. -/
inductive PollAct where
  | request (url : String)
  | printStatus (status : Option String)
  | printInfo (msg : String)
  | printError (msg : String)
  | sleep (seconds : Nat)
  deriving Repr, DecidableEq

/-- `poll_mission_status` (lines 92–108) on a finite list of observed
responses: the actions taken and the returned value; `none` means the list
was exhausted with the loop still polling (the function has not
returned). -/
def poll_mission_status (mission_id : String) :
    List PollResp → List PollAct × Option Bool
  | [] => ([], none)
  | PollResp.clientError m :: _ =>
      ([PollAct.request (mission_status_url mission_id),
        PollAct.printError ("An error occurred while polling: " ++ m)], some false)
  | PollResp.okStatus s :: rest =>
      if s = some "stage2" then
        ([PollAct.request (mission_status_url mission_id), PollAct.printStatus s,
          PollAct.printInfo "Stage 2 reached! Connecting to WebSocket..."], some true)
      else
        (PollAct.request (mission_status_url mission_id) :: PollAct.printStatus s ::
            PollAct.sleep 2 :: (poll_mission_status mission_id rest).1,
         (poll_mission_status mission_id rest).2)

/-- C7: polling behaviour.  `poll_mission_status` returns `True` only after
observing a response whose `status` field equals `"stage2"`; on an aiohttp
client error it prints the error and returns `False` immediately, without
retrying; while every observed status is something else it keeps polling —
issuing a request, printing the status and sleeping 2 seconds per response
— and does not return. -/
theorem poll_mission_status_behaviour (mission_id : String) (resps : List PollResp) :
    ((poll_mission_status mission_id resps).2 = some true →
        PollResp.okStatus (some "stage2") ∈ resps)
    ∧ (∀ m rest, poll_mission_status mission_id (PollResp.clientError m :: rest) =
        ([PollAct.request (mission_status_url mission_id),
          PollAct.printError ("An error occurred while polling: " ++ m)], some false))
    ∧ ((∀ r ∈ resps, ∃ s, r = PollResp.okStatus s ∧ s ≠ some "stage2") →
        (poll_mission_status mission_id resps).2 = none
        ∧ (poll_mission_status mission_id resps).1 = resps.flatMap (fun r =>
            match r with
            | PollResp.okStatus s =>
                [PollAct.request (mission_status_url mission_id), PollAct.printStatus s,
                 PollAct.sleep 2]
            | PollResp.clientError _ => [])) := by
  refine ⟨?_, fun m rest => rfl, ?_⟩
  · intro h
    induction resps with
    | nil => simp [poll_mission_status] at h
    | cons r rest ih =>
      cases r with
      | clientError m => simp [poll_mission_status] at h
      | okStatus s =>
        by_cases hs : s = some "stage2"
        · subst hs; exact List.mem_cons_self _ _
        · rw [poll_mission_status, if_neg hs] at h
          exact List.mem_cons_of_mem _ (ih h)
  · intro hall
    induction resps with
    | nil => simp [poll_mission_status]
    | cons r rest ih =>
      obtain ⟨s, rfl, hs⟩ := hall r (List.mem_cons_self _ _)
      have ih' := ih (fun r hr => hall r (List.mem_cons_of_mem _ hr))
      rw [poll_mission_status, if_neg hs]
      simp only [List.flatMap_cons, List.cons_append]
      exact ⟨ih'.1, by rw [ih'.2]; rfl⟩

/-- Closed witness for C7: two non-stage2 statuses leave the loop still
polling, with a request / status print / 2-second sleep per response. -/
theorem poll_mission_status_behaviour_witness :
    poll_mission_status "m1" [PollResp.okStatus (some "stage1"), PollResp.okStatus none] =
      ([PollAct.request (mission_status_url "m1"), PollAct.printStatus (some "stage1"),
        PollAct.sleep 2, PollAct.request (mission_status_url "m1"), PollAct.printStatus none,
        PollAct.sleep 2], none) := by
  have h := (poll_mission_status_behaviour "m1"
      [PollResp.okStatus (some "stage1"), PollResp.okStatus none]).2.2
      (by intro r hr
          simp only [List.mem_cons, List.not_mem_nil, or_false] at hr
          rcases hr with rfl | rfl
          · exact ⟨some "stage1", rfl, by decide⟩
          · exact ⟨none, rfl, by decide⟩)
  have h1 := h.1
  have h2 := h.2
  refine Prod.ext ?_ ?_
  · rw [h2]; rfl
  · rw [h1]

/-- A server request made by the client. -/
inductive Request where
  | post (url : String) (jsonKeys : List String)
  | get (url : String)
  | wsConnect (uri : String)
  deriving Repr, DecidableEq

/-- The single POST issued by `create_mission` (lines 78–79):
`session.post(f"{BASE_URL}/create_mission", json={"topic": topic, "user_id": user_id})`. -/
def create_mission_request : Request :=
  Request.post (BASE_URL ++ "/create_mission") ["topic", "user_id"]

/-- The GET requests issued by a polling run. -/
def poll_requests (mission_id : String) (resps : List PollResp) : List Request :=
  (poll_mission_status mission_id resps).1.filterMap fun a =>
    match a with
    | PollAct.request u => some (Request.get u)
    | _ => none

/-- All server requests one `main` menu iteration can issue for a mission:
the `create_mission` POST, the polling GETs, and the WebSocket connection
(`handle_websocket_communication` via `websockets.connect`). -/
def client_requests (mission_id : String) (resps : List PollResp) : List Request :=
  create_mission_request :: poll_requests mission_id resps ++ [Request.wsConnect (ws_uri mission_id)]

theorem poll_acts_request_url (mission_id : String) (resps : List PollResp) :
    ∀ a ∈ (poll_mission_status mission_id resps).1, ∀ u, a = PollAct.request u →
      u = mission_status_url mission_id := by
  induction resps with
  | nil => simp [poll_mission_status]
  | cons r rest ih =>
    cases r with
    | clientError m =>
      intro a ha u hu
      simp [poll_mission_status] at ha
      rcases ha with rfl | rfl
      · exact (PollAct.request.inj hu).symm
      · simp at hu
    | okStatus s =>
      by_cases hs : s = some "stage2" <;>
        rw [poll_mission_status] <;>
        simp only [hs, if_true, if_false, reduceIte] <;>
        intro a ha u hu
      · simp at ha
        rcases ha with rfl | rfl | rfl
        · exact (PollAct.request.inj hu).symm
        · simp at hu
        · simp at hu
      · simp at ha
        rcases ha with rfl | rfl | rfl | ha
        · exact (PollAct.request.inj hu).symm
        · simp at hu
        · simp at hu
        · exact ih a ha u hu

/-- C8: endpoint construction.  The only server requests the client issues
are the `create_mission` POST with JSON keys `topic` and `user_id`, GETs to
`BASE_URL + "/mission_status/" + mission_id`, and one WebSocket connection
to `"ws://localhost:8000/api/v1/ws/" + mission_id`. -/
theorem client_endpoints (mission_id : String) (resps : List PollResp) :
    create_mission_request =
        Request.post "http://localhost:8000/api/v1/create_mission" ["topic", "user_id"]
    ∧ ws_uri mission_id = "ws://localhost:8000/api/v1/ws/" ++ mission_id
    ∧ ∀ r ∈ client_requests mission_id resps,
        r = Request.post "http://localhost:8000/api/v1/create_mission" ["topic", "user_id"]
        ∨ r = Request.get ("http://localhost:8000/api/v1/mission_status/" ++ mission_id)
        ∨ r = Request.wsConnect ("ws://localhost:8000/api/v1/ws/" ++ mission_id) := by
  have hbase : BASE_URL ++ "/create_mission" =
      "http://localhost:8000/api/v1/create_mission" := by decide
  have hstat : ∀ u, u = mission_status_url mission_id →
      u = "http://localhost:8000/api/v1/mission_status/" ++ mission_id := by
    intro u hu
    rw [hu, mission_status_url]
    rw [show BASE_URL ++ "/mission_status/" =
      "http://localhost:8000/api/v1/mission_status/" from by decide]
  refine ⟨by rw [create_mission_request, hbase], rfl, ?_⟩
  intro r hr
  simp only [client_requests, List.mem_cons, List.mem_append, List.mem_singleton,
    List.not_mem_nil, or_false] at hr
  rcases hr with (rfl | hr) | rfl
  · left; rw [create_mission_request, hbase]
  · right; left
    simp only [poll_requests, List.mem_filterMap] at hr
    obtain ⟨a, ha, hfa⟩ := hr
    cases a with
    | request u =>
      have := poll_acts_request_url mission_id resps _ ha u rfl
      simp only [Option.some.injEq] at hfa
      rw [← hfa, this, mission_status_url]
      rw [show BASE_URL ++ "/mission_status/" =
        "http://localhost:8000/api/v1/mission_status/" from by decide]
    | printStatus s => simp at hfa
    | printInfo m => simp at hfa
    | printError m => simp at hfa
    | sleep n => simp at hfa
  · right; right; rfl

/-- Closed witness for C8 at a concrete mission id and polling run. -/
theorem client_endpoints_witness :
    Request.get "http://localhost:8000/api/v1/mission_status/m1" ∈
        client_requests "m1" [PollResp.okStatus (some "stage2")]
    ∧ (Request.get "http://localhost:8000/api/v1/mission_status/m1" =
          Request.post "http://localhost:8000/api/v1/create_mission" ["topic", "user_id"]
        ∨ Request.get "http://localhost:8000/api/v1/mission_status/m1" =
            Request.get ("http://localhost:8000/api/v1/mission_status/" ++ "m1")
        ∨ Request.get "http://localhost:8000/api/v1/mission_status/m1" =
            Request.wsConnect ("ws://localhost:8000/api/v1/ws/" ++ "m1")) :=
  ⟨by decide,
   (client_endpoints "m1" [PollResp.okStatus (some "stage2")]).2.2 _ (by decide)⟩

/-- A Python value as it can appear under `"_id"` in the mission-creation
JSON response; `pyNone` also models a missing `"_id"` key, since
`dict.get` returns `None` for it. -/
inductive PyVal where
  | pyNone
  | pyStr (s : String)
  | pyInt (n : Int)
  deriving Repr, DecidableEq

/-- Python `str(v)`. -/
def pyToStr : PyVal → String
  | .pyNone => "None"
  | .pyStr s => s
  | .pyInt n => toString n

/-- Which branch of `create_mission` runs after a successful JSON
response. -/
inductive CreateOutcome where
  | stored (mission_id : String)
  | idNotFound
  deriving Repr, DecidableEq

/-- Lines 83–88 of the source:
`if mission_id := str(mission_data.get("_id")): ... else: print("Error: Mission ID not found.")`.
The walrus-assigned string is truthy iff non-empty. -/
def create_mission_branch (v : PyVal) : CreateOutcome :=
  if pyToStr v ≠ "" then CreateOutcome.stored (pyToStr v) else CreateOutcome.idNotFound

/-- C10: the missing-ID branch is effectively unreachable.  A response
without `"_id"` (or with it mapped to `None`) yields the truthy string
`"None"`, so the mission is stored as created successfully; the
`"Error: Mission ID not found."` branch runs exactly when `str` of the
`"_id"` value is the empty string. -/
theorem create_mission_missing_id_unreachable :
    create_mission_branch PyVal.pyNone = CreateOutcome.stored "None"
    ∧ (∀ v, create_mission_branch v = CreateOutcome.idNotFound ↔ pyToStr v = "") := by
  constructor
  · decide
  · intro v
    unfold create_mission_branch
    split <;> rename_i h <;> simp_all

/-- Closed witness for C10: only the empty-string id reaches the error
branch. -/
theorem create_mission_missing_id_unreachable_witness :
    create_mission_branch (PyVal.pyStr "") = CreateOutcome.idNotFound :=
  (create_mission_missing_id_unreachable.2 (PyVal.pyStr "")).mpr rfl

end RadioMirchi
